import Mathlib

/-!
Shallow embedding of the GreenFood backend (src/main.py with the schema module
src/schemas.py) and proofs about its order / wallet / auth endpoints.

Conventions used throughout:
* MongoDB collections are Lean lists of records; `find_one` is `List.find?`
  (first match) and `update_one` updates the first matching record.
* Monetary fields are `Int`; the endpoints only ever use them through Python's
  `int(...)`, and the spec states inputs are whole-currency-unit integers.
* Timestamps (`datetime.now`) are an abstract `Nat` tick passed in by the caller.
* Generated identifiers (`ObjectId`, `uuid4().hex`) are passed in as parameters.
* JWT decoding (`jose.jwt.decode` with the fixed secret) is an abstract function
  `String → DecodeResult` supplied to the endpoints.
-/

namespace GreenFood

/-- ASCII lower-casing of a single character, as Python's `str.lower` acts on the
ASCII range (no theorem below depends on non-ASCII case mapping). -/
def lowerChar (c : Char) : Char :=
  if 65 ≤ c.toNat && c.toNat ≤ 90 then Char.ofNat (c.toNat + 32) else c

/-- ASCII upper-casing of a single character, as Python's `str.upper` acts on the
ASCII range. -/
def upperChar (c : Char) : Char :=
  if 97 ≤ c.toNat && c.toNat ≤ 122 then Char.ofNat (c.toNat - 32) else c

/-- Lower-case every character of a character list. -/
def lowerList (l : List Char) : List Char := l.map lowerChar

/-- Python `s.lower()` (ASCII fragment). -/
def pyLower (s : String) : String := ⟨lowerList s.data⟩

/-- Python `s.upper()` (ASCII fragment). -/
def pyUpper (s : String) : String := ⟨s.data.map upperChar⟩

/-- Does the second character list start with the first one?  This is Python's
`str.startswith` on the underlying characters. -/
def listStarts : List Char → List Char → Bool
  | [], _ => true
  | _ :: _, [] => false
  | a :: as, b :: bs => a == b && listStarts as bs

/-- Python `s.split(sep)` for a one-character separator: every occurrence splits,
and empty pieces are kept. -/
def splitOnChar (sep : Char) : List Char → List (List Char)
  | [] => [[]]
  | c :: cs =>
    match splitOnChar sep cs with
    | [] => [[]]
    | g :: gs => if c == sep then [] :: g :: gs else (c :: g) :: gs

/-- The piece `authorization.split(" ")[1]` extracted in `get_current_user`
(src/main.py line 63).  The index is in range whenever the lower-cased header
starts with the seven characters of the string bearer-then-space, so the partial
indexing of the source is total here. -/
def bearer_token (a : String) : String := ⟨(splitOnChar ' ' a.data).getD 1 []⟩

/-- Is `c` an ASCII hexadecimal digit? -/
def isHexChar (c : Char) : Bool :=
  (48 ≤ c.toNat && c.toNat ≤ 57) || (97 ≤ c.toNat && c.toNat ≤ 102) ||
    (65 ≤ c.toNat && c.toNat ≤ 70)

/-- Does the string parse as a BSON `ObjectId`?  `bson.ObjectId` accepts exactly
the 24-character hexadecimal strings (the 12-byte binary form never arrives over
these HTTP routes); on anything else it raises `InvalidId`. -/
def isValidObjectId (s : String) : Bool :=
  s.data.length == 24 && s.data.all isHexChar

/-- The message of `bson.errors.InvalidId` for a string that fails to parse. -/
def invalidIdMessage (s : String) : String :=
  "'" ++ s ++ "' is not a valid ObjectId, it must be a 12-byte input or a 24-character hex string"

/-- A FastAPI/Starlette `HTTPException`: status code and detail. -/
structure HTTPError where
  status_code : Nat
  detail : String
deriving Repr, DecidableEq

/-- Starlette's `HTTPException.__str__`, i.e. the `str(e)` used when an endpoint
rewraps a caught exception: the status code, a colon-space, and the detail. -/
def excStr (e : HTTPError) : String :=
  toString e.status_code ++ ": " ++ e.detail

/-- Modelled from the spec: the `AuthUser` schema class is imported by
src/main.py but absent from the provided schema file; its fields follow the
spec's data model (§3: email, name, password_hash, role, balance, is_active)
and the constructor call in `register_user` (src/main.py line 98).  `role` and
`balance` are optional because the endpoints read them with `dict.get`
defaults (`user.get("role")`, `user.get("balance", 0)`). -/
structure UserDoc where
  _id : String
  email : String
  name : String
  password_hash : String
  role : Option String
  balance : Option Int
  is_active : Bool
  created_at : Nat
  updated_at : Nat
deriving Repr, DecidableEq

/-- One line of an order, from the `OrderItem` schema (src/schemas.py lines
52-57).  `price` is carried as `Int` (see the file comment on money). -/
structure OrderItem where
  product_id : String
  title : String
  price : Int
  quantity : Int
  image : Option String
deriving Repr, DecidableEq

/-- The `Order` request model (src/schemas.py lines 59-71).  The field
`payment_method` is modelled from the spec: the spec's data model (§3) and
`create_order` (src/main.py line 242) both use `order.payment_method`, but the
provided schema file omits the field. `status` defaults to the string pending. -/
structure Order where
  buyer_name : String
  buyer_email : String
  buyer_address : String
  items : List OrderItem
  subtotal : Int
  delivery_fee : Int
  total : Int
  status : String := "pending"
  payment_method : String
deriving Repr, DecidableEq

/-- An order document as persisted by `create_order`: the dumped `Order` model,
plus the optional `buyer_id` added when a buyer was resolved (src/main.py lines
249-252), under the generated `_id`. -/
structure StoredOrder where
  _id : String
  doc : Order
  buyer_id : Option String
  created_at : Option Nat
deriving Repr, DecidableEq

/-- A wallet top-up request document, exactly the dict built by
`wallet_topup_request` (src/main.py lines 414-422). -/
structure TopupDoc where
  _id : String
  user_id : String
  email : Option String
  amount : Int
  proof : String
  status : String
  created_at : Nat
  updated_at : Nat
deriving Repr, DecidableEq

/-- A product document, from the `Product` schema (src/schemas.py lines 39-50);
`category` is optional because `create_product` (src/main.py line 203) may store
it as null.  The float field `rating` is never read by any endpoint modelled
here and is omitted. -/
structure ProductDoc where
  _id : String
  title : String
  description : Option String
  price : Int
  category : Option String
  in_stock : Bool
  image : Option String
deriving Repr, DecidableEq

/-- The document store: one list per collection used by the modelled endpoints. -/
structure DB where
  authuser : List UserDoc
  order : List StoredOrder
  wallettopup : List TopupDoc
  product : List ProductDoc
deriving Repr, DecidableEq

/-- Mongo's `update_one`: rewrite the first record matching the filter, leave
everything else unchanged (no-op when nothing matches). -/
def updateFirst (p : α → Bool) (f : α → α) : List α → List α
  | [] => []
  | x :: xs => if p x then f x :: xs else x :: updateFirst p f xs

/-- Modelled from the spec: `create_document` of the missing database module is
the generic insert wrapper (spec §2, document store adapter) — it inserts the
document into the collection and returns its generated id (the id generation is
a parameter of each endpoint here). -/
def create_document (rows : List α) (doc : α) : List α := rows ++ [doc]

/-- Modelled from the spec: `get_documents` of the missing database module is
the generic find wrapper (spec §2) — the documents matching the filter, capped
at `limit`. -/
def get_documents (rows : List α) (query : α → Bool) (limit : Nat) : List α :=
  (rows.filter query).take limit

/-- Mongo `update_one({"_id": uid}, {"$inc": {"balance": delta}, "$set":
{"updated_at": now}})` on the authuser collection, as used by `create_order`
(src/main.py line 247) and `approve_topup` (line 452).  `$inc` on an absent
field creates it holding the increment, hence the `getD 0`. -/
def incBalanceById (uid : String) (delta : Int) (now : Nat)
    (users : List UserDoc) : List UserDoc :=
  updateFirst (fun u => u._id == uid)
    (fun u => { u with balance := some (u.balance.getD 0 + delta), updated_at := now }) users

/-- The JWT payload fields the application reads: the subject claim and the role
claim placed there by `login` (src/main.py line 110). -/
structure TokenPayload where
  sub : Option String
  role : Option String
deriving Repr, DecidableEq

/-- Outcome of `jwt.decode(token, SECRET_KEY, ...)`: a payload, or a `JWTError`
(malformed, expired, or bad signature). -/
inductive DecodeResult
  | ok (p : TokenPayload)
  | jwtError
deriving Repr, DecidableEq

/-- Only the success/subject part of a decode outcome — what remains of a token
once its role claim is ignored. -/
def subView : DecodeResult → Option (Option String)
  | .ok p => some p.sub
  | .jwtError => none

/-- `get_user_by_email` (src/main.py lines 56-57): `find_one({"email": email})`. -/
def get_user_by_email (db : DB) (email : String) : Option UserDoc :=
  db.authuser.find? (fun u => u.email == email)

/-- `get_current_user` (src/main.py lines 60-74).  A missing header and a header
that does not start with the bearer scheme share the first 401; a `JWTError`
and a falsy subject claim share the second; an unknown email is the third.
Note the Python `if not sub` also rejects an empty-string subject. -/
def get_current_user (db : DB) (decode : String → DecodeResult)
    (authorization : Option String) : Except HTTPError UserDoc :=
  match authorization with
  | none => .error ⟨401, "Not authenticated"⟩
  | some a =>
    if listStarts ("bearer ".data) (lowerList a.data) then
      match decode (bearer_token a) with
      | .jwtError => .error ⟨401, "Invalid token"⟩
      | .ok p =>
        match p.sub with
        | none => .error ⟨401, "Invalid token"⟩
        | some s =>
          if s == "" then .error ⟨401, "Invalid token"⟩
          else
            match get_user_by_email db s with
            | none => .error ⟨401, "User not found"⟩
            | some u => .ok u
    else .error ⟨401, "Not authenticated"⟩

/-- `require_admin` (src/main.py lines 77-79): 403 unless the stored role,
defaulted through `or ""` and lower-cased, equals the string admin. -/
def require_admin (user : UserDoc) : Except HTTPError Unit :=
  if pyLower (user.role.getD "") == "admin" then .ok () else .error ⟨403, "Admin only"⟩

/-- The admin-only entry sequence of the protected endpoints: resolve the
current user, then `require_admin` on the resolved (stored) record. -/
def admin_gate (db : DB) (decode : String → DecodeResult)
    (authorization : Option String) : Except HTTPError UserDoc :=
  match get_current_user db decode authorization with
  | .error e => .error e
  | .ok u =>
    match require_admin u with
    | .error e => .error e
    | .ok _ => .ok u

/-- The buyer-resolution block of `create_order` (src/main.py lines 235-240):
only a truthy header is tried at all, and every exception from
`get_current_user` is swallowed, leaving the order anonymous. -/
def resolve_buyer (db : DB) (decode : String → DecodeResult)
    (authorization : Option String) : Option UserDoc :=
  match authorization with
  | none => none
  | some a =>
    if a == "" then none
    else
      match get_current_user db decode (some a) with
      | .ok u => some u
      | .error _ => none

/-- `create_order` (src/main.py lines 232-257).  With a resolved buyer and the
greenpay payment method the balance is checked, decremented, and the status
stamped paid before the document (with `buyer_id`) is inserted; on the
insufficient-funds path the 400 is re-raised unchanged by the
`except HTTPException` clause.  Returns the endpoint's `(_id, status)` payload
together with the resulting store. -/
def create_order (db : DB) (decode : String → DecodeResult) (now : Nat)
    (newId : String) (order : Order) (authorization : Option String) :
    Except HTTPError (String × String) × DB :=
  match resolve_buyer db decode authorization with
  | some b =>
    if order.payment_method == "greenpay" then
      if b.balance.getD 0 < order.total then
        (.error ⟨400, "Saldo GreenPay tidak cukup"⟩, db)
      else
        let db1 : DB :=
          { db with authuser := incBalanceById b._id (-order.total) now db.authuser }
        let stored : StoredOrder :=
          { _id := newId, doc := { order with status := "paid" },
            buyer_id := some b._id, created_at := none }
        (.ok (newId, "paid"), { db1 with order := create_document db1.order stored })
    else
      let stored : StoredOrder :=
        { _id := newId, doc := order, buyer_id := some b._id, created_at := none }
      (.ok (newId, order.status), { db with order := create_document db.order stored })
  | none =>
    let stored : StoredOrder :=
      { _id := newId, doc := order, buyer_id := none, created_at := none }
    (.ok (newId, order.status), { db with order := create_document db.order stored })

/-- `register_user` (src/main.py lines 93-102): a prior read on the email, a 400
on a hit, otherwise an `AuthUser` document with role user and zero balance is
inserted and `(_id, email, role)` returned.  The bcrypt hash of
`hash_password` is an abstract function parameter. -/
def register_user (db : DB) (hash : String → String) (now : Nat) (newId : String)
    (name email password : String) : Except HTTPError (String × String × String) × DB :=
  match db.authuser.find? (fun u => u.email == email) with
  | some _ => (.error ⟨400, "Email already registered"⟩, db)
  | none =>
    let doc : UserDoc :=
      { _id := newId, email := email, name := name, password_hash := hash password,
        role := some "user", balance := some 0, is_active := true,
        created_at := now, updated_at := now }
    (.ok (newId, email, "user"), { db with authuser := create_document db.authuser doc })

/-- `wallet_topup_request` (src/main.py lines 402-426).  The whole body sits in
a `try` whose handler is `except Exception` with no preceding
`except HTTPException: raise`, so the 400 raised for a non-positive amount is
itself caught and rewrapped as a 500 carrying `str(e)`.  `ext0` stands for
`os.path.splitext(proof.filename or "")[1]` and `hex` for `uuid4().hex`; the
proof image bytes live outside the store and are not modelled. -/
def wallet_topup_request (db : DB) (now : Nat) (newId hex : String)
    (amount : Int) (ext0 : String) (user : UserDoc) :
    Except HTTPError (String × String) × DB :=
  if amount ≤ 0 then
    (.error ⟨500, excStr ⟨400, "Jumlah top up tidak valid"⟩⟩, db)
  else
    let ext := if ext0 == "" then ".jpg" else ext0
    let fname := "topup-" ++ hex ++ ext
    let doc : TopupDoc :=
      { _id := newId, user_id := user._id, email := some user.email,
        amount := amount, proof := "/uploads/" ++ fname, status := "pending",
        created_at := now, updated_at := now }
    (.ok (newId, "pending"), { db with wallettopup := create_document db.wallettopup doc })

/-- `approve_topup` (src/main.py lines 441-454), after dependency resolution has
produced `user`.  The endpoint has no `try`, so an `InvalidId` from either
`ObjectId(...)` call escapes and becomes FastAPI's generic 500.  An
already-approved record short-circuits; otherwise the referenced user's balance
is credited and then the record is marked approved. -/
def approve_topup (db : DB) (now : Nat) (req_id : String) (user : UserDoc) :
    Except HTTPError String × DB :=
  match require_admin user with
  | .error e => (.error e, db)
  | .ok _ =>
    if isValidObjectId req_id then
      match db.wallettopup.find? (fun r => r._id == req_id) with
      | none => (.error ⟨404, "Topup request not found"⟩, db)
      | some req =>
        if req.status == "approved" then (.ok "already_approved", db)
        else
          if isValidObjectId req.user_id then
            let db1 : DB :=
              { db with authuser := incBalanceById req.user_id req.amount now db.authuser }
            let db2 : DB :=
              { db1 with wallettopup :=
                  (updateFirst (fun r => r._id == req_id)
                    (fun r => { r with status := "approved", updated_at := now })
                    db1.wallettopup) }
            (.ok "approved", db2)
          else (.error ⟨500, "Internal Server Error"⟩, db)
    else (.error ⟨500, "Internal Server Error"⟩, db)

/-- `reject_topup` (src/main.py lines 457-464), after dependency resolution has
produced `user`: 404 when the record is absent, otherwise the record's status
is set to rejected unconditionally.  No other collection is touched. -/
def reject_topup (db : DB) (now : Nat) (req_id : String) (user : UserDoc) :
    Except HTTPError String × DB :=
  match require_admin user with
  | .error e => (.error e, db)
  | .ok _ =>
    if isValidObjectId req_id then
      match db.wallettopup.find? (fun r => r._id == req_id) with
      | none => (.error ⟨404, "Topup request not found"⟩, db)
      | some _ =>
        (.ok "rejected",
         { db with wallettopup :=
             (updateFirst (fun r => r._id == req_id)
               (fun r => { r with status := "rejected", updated_at := now })
               db.wallettopup) })
    else (.error ⟨500, "Internal Server Error"⟩, db)

/-- `get_order` (src/main.py lines 260-271): the `ObjectId(order_id)` parse error
is caught by the endpoint's `except Exception` and surfaced as a 500 carrying
`str(e)`; the 404 for a well-formed absent id passes through the
`except HTTPException` clause unchanged. -/
def get_order (db : DB) (order_id : String) : Except HTTPError StoredOrder :=
  if isValidObjectId order_id then
    match db.order.find? (fun o => o._id == order_id) with
    | none => .error ⟨404, "Order not found"⟩
    | some row => .ok row
  else .error ⟨500, invalidIdMessage order_id⟩

/-- The opaque stand-in for `created_at.strftime("%d %b %Y %H:%M")`: no theorem
inspects the date format, so the tick is rendered by its decimal numeral. -/
def fmtDate (t : Nat) : String := toString t

/-- The currency renderer `rp` of the invoice (src/main.py lines 291-292):
Python's thousands-separated format with the separators replaced by dots. -/
def groupRev : List Char → List Char
  | a :: b :: c :: d :: rest => a :: b :: c :: '.' :: groupRev (d :: rest)
  | l => l

/-- Format an integer as the invoice does: the string Rp, then the sign, then
the decimal digits in dot-separated groups of three. -/
def rp (x : Int) : String :=
  let sign := if x < 0 then "-" else ""
  let digits := toString x.natAbs
  "Rp" ++ sign ++ ⟨(groupRev digits.data.reverse).reverse⟩

/-- One table row of the invoice (src/main.py lines 293-304): index, title,
quantity, unit price and line subtotal; the static cell markup is abbreviated
since no claim inspects it. -/
def invoice_row (i : Nat) (it : OrderItem) : String :=
  "<tr><td>#" ++ toString (i + 1) ++ "</td><td>" ++ it.title ++ "</td><td>" ++
    toString it.quantity ++ "</td><td>" ++ rp it.price ++ "</td><td>" ++
    rp (it.price * it.quantity) ++ "</td></tr>"

/-- The invoice document built by `get_order_invoice` (src/main.py lines
280-393) for an order persisted by this API: the dynamic fields in template
order, with the static markup between them abbreviated.  Orders persisted by
`create_order` carry no discount or coupon_code field (the schema has none), so
the `dict.get` defaults 0 and the dash apply. -/
def invoice_html (order_id : String) (row : StoredOrder) : String :=
  let created_str := match row.created_at with | some t => fmtDate t | none => ""
  let status := pyUpper row.doc.status
  let rows := String.join ((row.doc.items.enum.map (fun p => invoice_row p.1 p.2)))
  "<title>Faktur #" ++ order_id ++ " - GreenFood</title><status>" ++ status ++
    "</status><no>" ++ order_id ++ "</no><date>" ++ created_str ++ "</date><buyer>" ++
    row.doc.buyer_name ++ "|" ++ row.doc.buyer_email ++ "|" ++ row.doc.buyer_address ++
    "</buyer><rows>" ++ rows ++ "</rows><subtotal>" ++ rp row.doc.subtotal ++
    "</subtotal><discount>- " ++ rp 0 ++ "</discount><delivery>" ++
    rp row.doc.delivery_fee ++ "</delivery><total>" ++ rp row.doc.total ++ "</total>"

/-- `get_order_invoice` (src/main.py lines 274-398): identical error handling to
`get_order`, and on success the rendered HTML document. -/
def get_order_invoice (db : DB) (order_id : String) : Except HTTPError String :=
  if isValidObjectId order_id then
    match db.order.find? (fun o => o._id == order_id) with
    | none => .error ⟨404, "Order not found"⟩
    | some row => .ok (invoice_html order_id row)
  else .error ⟨500, invalidIdMessage order_id⟩

/-- Is `c` one of the characters that carry meaning in a regular expression?
A query avoiding all of these is matched by `$regex` exactly as a literal. -/
def regexMeta (c : Char) : Bool :=
  c == '.' || c == '*' || c == '+' || c == '?' || c == '(' || c == ')' ||
    c == '[' || c == ']' || c == '{' || c == '}' || c == '|' || c == '^' ||
    c == '$' || c == '\\'

/-- Caseless single-character match of a pattern character against a text
character: the dot wildcard matches anything, a literal matches up to ASCII
case folding (the `$options: "i"` flag). -/
def regexCharMatches (pc c : Char) : Bool :=
  pc == '.' || lowerChar pc == lowerChar c

/-- Does the pattern match a prefix of the text?  This is the matcher for the
regular-expression fragment the theorems need: literal characters plus the dot
wildcard (none of the richer constructs are inspected by any claim). -/
def regexMatchHere : List Char → List Char → Bool
  | [], _ => true
  | _ :: _, [] => false
  | pc :: ps, c :: cs => regexCharMatches pc c && regexMatchHere ps cs

/-- Unanchored search: does the pattern match starting at some position of the
text?  Mongo's `$regex` filter is unanchored. -/
def regexSearch (pat : List Char) : List Char → Bool
  | [] => regexMatchHere pat []
  | c :: cs => regexMatchHere pat (c :: cs) || regexSearch pat cs

/-- The filter `{"title": {"$regex": q, "$options": "i"}}` built by
`list_products` (src/main.py line 188), on the modelled regex fragment. -/
def title_regex_i (q title : String) : Bool := regexSearch q.data title.data

/-- Does the needle occur contiguously inside the haystack? -/
def subOccurs (needle : List Char) : List Char → Bool
  | [] => listStarts needle []
  | c :: cs => listStarts needle (c :: cs) || subOccurs needle cs

/-- The spec's reading of the text query: the title contains the query as a
substring, case-insensitively.  This is the second, spec-worded definition the
refinement part of the products claim compares against the source's regex
filter. -/
def titleContainsCI (title q : String) : Bool :=
  subOccurs (lowerList q.data) (lowerList title.data)

/-- The query dict built by `list_products` (src/main.py lines 184-188): an
absent or falsy (empty) parameter contributes no clause; a category filters by
exact equality on the category field, a text query by the case-insensitive
regex on the title. -/
def product_query (category q : Option String) (p : ProductDoc) : Bool :=
  (match category with
   | none => true
   | some c => if c == "" then true else p.category == some c) &&
  (match q with
   | none => true
   | some s => if s == "" then true else title_regex_i s p.title)

/-- `list_products` (src/main.py lines 181-194): `get_documents` over the
product collection with the built query, limit 100. -/
def list_products (db : DB) (category q : Option String) : List ProductDoc :=
  get_documents db.product (product_query category q) 100

/-! Concrete fixtures used to instantiate the theorems below on closed inputs. -/

/-- A stored administrator account. -/
def adminUser : UserDoc :=
  { _id := "aaaaaaaaaaaaaaaaaaaaaaaa", email := "admin@x", name := "Ada",
    password_hash := "hashA", role := some "admin", balance := some 0,
    is_active := true, created_at := 0, updated_at := 0 }

/-- A stored buyer account holding a 20000 balance. -/
def buyerUser : UserDoc :=
  { _id := "bbbbbbbbbbbbbbbbbbbbbbbb", email := "u@x", name := "Umar",
    password_hash := "hashU", role := some "user", balance := some 20000,
    is_active := true, created_at := 0, updated_at := 0 }

/-- A pending top-up of 5000 filed by the buyer. -/
def topupPending : TopupDoc :=
  { _id := "dddddddddddddddddddddddd", user_id := "bbbbbbbbbbbbbbbbbbbbbbbb",
    email := some "u@x", amount := 5000, proof := "/uploads/topup-p.jpg",
    status := "pending", created_at := 0, updated_at := 0 }

/-- A stored product titled tea. -/
def teaProduct : ProductDoc :=
  { _id := "eeeeeeeeeeeeeeeeeeeeeeee", title := "tea", description := some "loose leaf",
    price := 12000, category := some "drinks", in_stock := true, image := none }

/-- An order payload paying cash on delivery. -/
def anonOrder : Order :=
  { buyer_name := "Ann", buyer_email := "ann@x", buyer_address := "Somewhere",
    items := [{ product_id := "eeeeeeeeeeeeeeeeeeeeeeee", title := "tea",
                price := 10000, quantity := 2, image := none }],
    subtotal := 20000, delivery_fee := 5000, total := 25000,
    status := "pending", payment_method := "cod" }

/-- The persisted form of `anonOrder`, created anonymously. -/
def storedAnonOrder : StoredOrder :=
  { _id := "ffffffffffffffffffffffff", doc := anonOrder, buyer_id := none,
    created_at := some 5 }

/-- An order payload of total 15000 paying with the wallet. -/
def greenpayOrder : Order :=
  { buyer_name := "Umar", buyer_email := "u@x", buyer_address := "Home",
    items := [{ product_id := "eeeeeeeeeeeeeeeeeeeeeeee", title := "tea",
                price := 15000, quantity := 1, image := none }],
    subtotal := 15000, delivery_fee := 0, total := 15000,
    status := "pending", payment_method := "greenpay" }

/-- The example store. -/
def exDB : DB :=
  { authuser := [adminUser, buyerUser], order := [storedAnonOrder],
    wallettopup := [topupPending], product := [teaProduct] }

/-- A decoder whose every token carries the buyer's email and a role claim. -/
def decodeBuyer : String → DecodeResult := fun _ => .ok ⟨some "u@x", some "user"⟩

/-- The same subjects as `decodeBuyer` but with no role claim at all. -/
def decodeBuyerNoRole : String → DecodeResult := fun _ => .ok ⟨some "u@x", none⟩

/-- A decoder whose every token carries the administrator's email. -/
def decodeAdmin : String → DecodeResult := fun _ => .ok ⟨some "admin@x", some "admin"⟩

/-- A decoder rejecting every token (malformed, expired, or bad signature). -/
def decodeFail : String → DecodeResult := fun _ => .jwtError

/-! Helper lemmas about the store primitives. -/

/-- Reading back through the same filter after `updateFirst` sees the updated
first match, provided the update preserves the filter. -/
theorem find?_updateFirst (p : α → Bool) (f : α → α)
    (hpf : ∀ a, p a = true → p (f a) = true) :
    ∀ l : List α, (updateFirst p f l).find? p = (l.find? p).map f := by
  intro l
  induction l with
  | nil => rfl
  | cons x xs ih =>
    rcases hx : p x with _ | _
    · simp [updateFirst, hx, List.find?_cons, ih]
    · simp [updateFirst, hx, List.find?_cons, hpf x hx]

/-- A record not matching the filter survives `updateFirst` untouched. -/
theorem mem_updateFirst (p : α → Bool) (f : α → α) (v : α) (hv : p v = false) :
    ∀ l : List α, v ∈ l → v ∈ updateFirst p f l := by
  intro l
  induction l with
  | nil => simp
  | cons x xs ih =>
    intro hm
    rcases List.mem_cons.mp hm with h | h
    · subst h
      simp [updateFirst, hv]
    · rcases hx : p x with _ | _
      · simpa [updateFirst, hx] using Or.inr (ih h)
      · simp [updateFirst, hx, List.mem_cons, h]

/-- Reading the user back by id after a balance `$inc` sees the credited (or
debited) first match. -/
theorem incBalanceById_find? (uid : String) (delta : Int) (now : Nat)
    (users : List UserDoc) (u : UserDoc)
    (hu : users.find? (fun v => v._id == uid) = some u) :
    (incBalanceById uid delta now users).find? (fun v => v._id == uid) =
      some { u with balance := some (u.balance.getD 0 + delta), updated_at := now } := by
  rw [incBalanceById,
    find?_updateFirst (fun v => v._id == uid)
      (fun v => { v with balance := some (v.balance.getD 0 + delta), updated_at := now })
      (fun a ha => ha) users, hu]
  rfl

/-- An authenticated request has a non-empty header: `get_current_user` rejects
the empty string. -/
theorem get_current_user_empty (db : DB) (decode : String → DecodeResult) :
    get_current_user db decode (some "") = .error ⟨401, "Not authenticated"⟩ := rfl

/-- When `get_current_user` succeeds, the swallowing buyer-resolution block of
`create_order` resolves that same buyer. -/
theorem resolve_buyer_of_ok (db : DB) (decode : String → DecodeResult)
    (a : String) (buyer : UserDoc)
    (hauth : get_current_user db decode (some a) = .ok buyer) :
    resolve_buyer db decode (some a) = some buyer := by
  have hne : (a == "") = false := by
    rcases h : a == "" with _ | _
    · rfl
    · exfalso
      have ha : a = "" := by simpa using h
      subst ha
      rw [get_current_user_empty] at hauth
      exact Except.noConfusion hauth
  simp [resolve_buyer, hne, hauth]

/-- When `get_current_user` fails, the buyer-resolution block of `create_order`
swallows the failure and yields no buyer. -/
theorem resolve_buyer_of_error (db : DB) (decode : String → DecodeResult)
    (a : String) (e : HTTPError)
    (hauth : get_current_user db decode (some a) = .error e) :
    resolve_buyer db decode (some a) = none := by
  rcases h : a == "" with _ | _
  · simp [resolve_buyer, h, hauth]
  · simp [resolve_buyer, h]

/-- **C1.** For every order request with payment_method greenpay placed by an
authenticated buyer whose stored balance is at least the order total,
`create_order` succeeds, the buyer's stored balance is decremented by exactly
the order total, and the order is persisted (and returned) with status paid,
while every other user record is untouched. -/
theorem createOrder_greenpay_sufficient_paid
    (db : DB) (decode : String → DecodeResult) (now : Nat) (newId : String)
    (order : Order) (a : String) (buyer : UserDoc)
    (hauth : get_current_user db decode (some a) = .ok buyer)
    (hfind : db.authuser.find? (fun v => v._id == buyer._id) = some buyer)
    (hpm : order.payment_method = "greenpay")
    (hbal : order.total ≤ buyer.balance.getD 0) :
    (create_order db decode now newId order (some a)).1 = .ok (newId, "paid") ∧
    ((create_order db decode now newId order (some a)).2.authuser.find?
        (fun v => v._id == buyer._id) =
      some { buyer with balance := some (buyer.balance.getD 0 - order.total),
                        updated_at := now }) ∧
    ((create_order db decode now newId order (some a)).2.order =
      db.order ++ [{ _id := newId, doc := { order with status := "paid" },
                     buyer_id := some buyer._id, created_at := none }]) ∧
    ∀ v ∈ db.authuser, v._id ≠ buyer._id →
      v ∈ (create_order db decode now newId order (some a)).2.authuser := by
  have hb := resolve_buyer_of_ok db decode a buyer hauth
  have hco : create_order db decode now newId order (some a) =
      (.ok (newId, "paid"),
       { db with
           authuser := incBalanceById buyer._id (-order.total) now db.authuser,
           order := create_document db.order
             { _id := newId, doc := { order with status := "paid" },
               buyer_id := some buyer._id, created_at := none } }) := by
    rw [create_order, hb]
    simp [hpm, not_lt.mpr hbal]
  refine ⟨by rw [hco], ?_, by rw [hco]; rfl, ?_⟩
  · rw [hco]
    show (incBalanceById buyer._id (-order.total) now db.authuser).find?
        (fun v => v._id == buyer._id) = _
    rw [incBalanceById_find? buyer._id (-order.total) now db.authuser buyer hfind,
      ← sub_eq_add_neg]
  · intro v hv hne
    rw [hco]
    show v ∈ incBalanceById buyer._id (-order.total) now db.authuser
    refine mem_updateFirst _ _ v ?_ db.authuser hv
    simpa using hne

/-- **C1 witness.** The buyer with balance 20000 pays a 15000 order with the
wallet: the call succeeds with status paid, the stored balance becomes 5000,
the order is persisted with the buyer's id, and the administrator record is
untouched. -/
theorem createOrder_greenpay_sufficient_paid_witness :
    (create_order exDB decodeBuyer 7 "cccccccccccccccccccccccc" greenpayOrder
        (some "Bearer t")).1 = .ok ("cccccccccccccccccccccccc", "paid") ∧
    ((create_order exDB decodeBuyer 7 "cccccccccccccccccccccccc" greenpayOrder
        (some "Bearer t")).2.authuser.find? (fun v => v._id == buyerUser._id) =
      some { buyerUser with balance := some (buyerUser.balance.getD 0 - greenpayOrder.total),
                            updated_at := 7 }) ∧
    ((create_order exDB decodeBuyer 7 "cccccccccccccccccccccccc" greenpayOrder
        (some "Bearer t")).2.order =
      exDB.order ++ [{ _id := "cccccccccccccccccccccccc",
                       doc := { greenpayOrder with status := "paid" },
                       buyer_id := some buyerUser._id, created_at := none }]) ∧
    ∀ v ∈ exDB.authuser, v._id ≠ buyerUser._id →
      v ∈ (create_order exDB decodeBuyer 7 "cccccccccccccccccccccccc" greenpayOrder
            (some "Bearer t")).2.authuser :=
  createOrder_greenpay_sufficient_paid exDB decodeBuyer 7 "cccccccccccccccccccccccc"
    greenpayOrder "Bearer t" buyerUser (by rfl) (by rfl) (by rfl) (by decide)

/-- **C2.** For every order request with payment_method greenpay placed by an
authenticated buyer whose stored balance is strictly below the order total,
`create_order` fails with the insufficient-funds client error and the store —
in particular the buyer's balance — is left entirely unchanged. -/
theorem createOrder_greenpay_insufficient_rejected
    (db : DB) (decode : String → DecodeResult) (now : Nat) (newId : String)
    (order : Order) (a : String) (buyer : UserDoc)
    (hauth : get_current_user db decode (some a) = .ok buyer)
    (hpm : order.payment_method = "greenpay")
    (hbal : buyer.balance.getD 0 < order.total) :
    create_order db decode now newId order (some a) =
      (.error ⟨400, "Saldo GreenPay tidak cukup"⟩, db) := by
  have hb := resolve_buyer_of_ok db decode a buyer hauth
  rw [create_order, hb]
  simp [hpm, hbal]

/-- **C2 witness.** The buyer with balance 20000 attempts a 25000 wallet order:
the call fails with the insufficient-funds 400 and the store is unchanged. -/
theorem createOrder_greenpay_insufficient_rejected_witness :
    create_order exDB decodeBuyer 7 "cccccccccccccccccccccccc"
        { greenpayOrder with subtotal := 25000, total := 25000 } (some "Bearer t") =
      (.error ⟨400, "Saldo GreenPay tidak cukup"⟩, exDB) :=
  createOrder_greenpay_insufficient_rejected exDB decodeBuyer 7
    "cccccccccccccccccccccccc" { greenpayOrder with subtotal := 25000, total := 25000 }
    "Bearer t" buyerUser (by rfl) (by rfl) (by decide)

/-- **C8.** When `create_order` is called with an Authorization header whose
token fails verification, the request does not fail with 401: the resolution
error is swallowed, the order is created anonymously (no buyer_id), the user
collection is untouched (so no balance deduction even for greenpay), and the
returned status is the payload's own status. -/
theorem createOrder_bad_token_anonymous
    (db : DB) (decode : String → DecodeResult) (now : Nat) (newId : String)
    (order : Order) (a : String) (e : HTTPError)
    (hauth : get_current_user db decode (some a) = .error e) :
    create_order db decode now newId order (some a) =
      (.ok (newId, order.status),
       { db with order := (create_document db.order
           { _id := newId, doc := order, buyer_id := none, created_at := none }) }) ∧
    (create_order db decode now newId order (some a)).2.authuser = db.authuser := by
  have hb := resolve_buyer_of_error db decode a e hauth
  constructor
  · rw [create_order, hb]
  · rw [create_order, hb]

/-- **C8 witness.** A greenpay order sent with an unverifiable token is created
anonymously with status pending and the buyer's 20000 balance intact. -/
theorem createOrder_bad_token_anonymous_witness :
    create_order exDB decodeFail 7 "cccccccccccccccccccccccc" greenpayOrder
        (some "Bearer bad") =
      (.ok ("cccccccccccccccccccccccc", "pending"),
       { exDB with order := (create_document exDB.order
           { _id := "cccccccccccccccccccccccc", doc := greenpayOrder,
             buyer_id := none, created_at := none }) }) ∧
    (create_order exDB decodeFail 7 "cccccccccccccccccccccccc" greenpayOrder
        (some "Bearer bad")).2.authuser = exDB.authuser :=
  createOrder_bad_token_anonymous exDB decodeFail 7 "cccccccccccccccccccccccc"
    greenpayOrder "Bearer bad" ⟨401, "Invalid token"⟩ (by rfl)

/-- The outcome of `get_current_user` does not depend on the role claim of the
token: two decoders agreeing on success and subject give the same result. -/
theorem get_current_user_decode_agnostic
    (db : DB) (d1 d2 : String → DecodeResult) (auth : Option String)
    (hsub : ∀ t, subView (d1 t) = subView (d2 t)) :
    get_current_user db d1 auth = get_current_user db d2 auth := by
  cases auth with
  | none => rfl
  | some a =>
    have hs := hsub (bearer_token a)
    rcases hb : listStarts ("bearer ".data) (lowerList a.data) with _ | _
    · simp [get_current_user, hb]
    · rcases h1 : d1 (bearer_token a) with p1 | _ <;>
        rcases h2 : d2 (bearer_token a) with p2 | _ <;>
        rw [h1, h2] at hs <;> simp only [subView] at hs
      · have : p1.sub = p2.sub := by simpa using hs
        simp [get_current_user, hb, h1, h2, this]
      · exact absurd hs (by simp)
      · exact absurd hs (by simp)
      · simp [get_current_user, hb, h1, h2]

/-- A user returned by `get_current_user` is read from storage: it is the
`find_one` result for some email. -/
theorem get_current_user_from_storage (db : DB) (d : String → DecodeResult)
    (auth : Option String) (v : UserDoc)
    (hv : get_current_user db d auth = .ok v) :
    ∃ s, get_user_by_email db s = some v := by
  rcases auth with _ | a
  · exact Except.noConfusion hv
  · rcases hb : listStarts ("bearer ".data) (lowerList a.data) with _ | _
    · simp [get_current_user, hb] at hv
    · rcases hd : d (bearer_token a) with p | _
      · rcases hs : p.sub with _ | s
        · simp [get_current_user, hb, hd, hs] at hv
        · rcases he : s == "" with _ | _
          · rcases hg : get_user_by_email db s with _ | u
            · simp [get_current_user, hb, hd, hs, he, hg] at hv
            · have huv : u = v := by
                simp [get_current_user, hb, hd, hs, he, hg] at hv
                exact hv
              exact ⟨s, by rw [hg, huv]⟩
          · simp [get_current_user, hb, hd, hs, he] at hv
      · simp [get_current_user, hb, hd] at hv

/-- **C5.** Authorization is decided by the user's current role as re-read from
storage by the token's email, never by the token's own role claim: the gate's
outcome is unchanged under any change of role claims, a resolved user is a
stored record, and `require_admin` fails exactly when the stored role,
lower-cased, differs from admin. -/
theorem adminGate_role_from_storage
    (db : DB) (d1 d2 : String → DecodeResult) (auth : Option String) (u : UserDoc)
    (hsub : ∀ t, subView (d1 t) = subView (d2 t)) :
    admin_gate db d1 auth = admin_gate db d2 auth ∧
    (∀ v, get_current_user db d1 auth = .ok v →
      ∃ s, get_user_by_email db s = some v) ∧
    (require_admin u = .ok () ↔ pyLower (u.role.getD "") = "admin") := by
  refine ⟨?_, fun v hv => get_current_user_from_storage db d1 auth v hv, ?_⟩
  · rw [admin_gate, admin_gate, get_current_user_decode_agnostic db d1 d2 auth hsub]
  · rw [require_admin]
    rcases h : pyLower (u.role.getD "") == "admin" with _ | _
    · rw [if_neg (by simp)]
      constructor
      · intro hc
        exact Except.noConfusion hc
      · intro hc
        rw [hc] at h
        simp at h
    · rw [if_pos rfl]
      exact ⟨fun _ => eq_of_beq h, fun _ => rfl⟩

/-- **C5 witness.** With tokens naming the buyer's email, the gate gives the
same 403 whether or not the token carries a role claim, the resolved user is
the stored buyer record, and `require_admin` on the stored administrator
succeeds precisely because the stored role is admin. -/
theorem adminGate_role_from_storage_witness :
    admin_gate exDB decodeBuyer (some "Bearer t") =
      admin_gate exDB decodeBuyerNoRole (some "Bearer t") ∧
    (∃ s, get_user_by_email exDB s = some buyerUser) ∧
    (require_admin adminUser = .ok () ↔ pyLower (adminUser.role.getD "") = "admin") := by
  have h := adminGate_role_from_storage exDB decodeBuyer decodeBuyerNoRole
    (some "Bearer t") adminUser (fun t => rfl)
  exact ⟨h.1, h.2.1 buyerUser (by rfl), h.2.2⟩

/-- Reading the topup back by id after its status `$set` sees the updated
first match. -/
theorem topupStatus_find? (rid st : String) (now : Nat)
    (rows : List TopupDoc) (req : TopupDoc)
    (h : rows.find? (fun r => r._id == rid) = some req) :
    (updateFirst (fun r => r._id == rid)
        (fun r => { r with status := st, updated_at := now }) rows).find?
      (fun r => r._id == rid) = some { req with status := st, updated_at := now } := by
  rw [find?_updateFirst (fun r => r._id == rid)
      (fun r => { r with status := st, updated_at := now }) (fun a ha => ha) rows, h]
  rfl

/-- **C3.** Approving an existing, not-yet-approved topup in one admin call
credits the referenced user's balance by the amount exactly once and marks the
record approved; a second call on the now-approved record (and in general any
call on an approved record) returns already_approved and changes nothing. -/
theorem approveTopup_credits_once_idempotent
    (db : DB) (now : Nat) (rid : String) (user : UserDoc) (req : TopupDoc) (u : UserDoc)
    (hadmin : require_admin user = .ok ())
    (hrid : isValidObjectId rid = true)
    (hreq : db.wallettopup.find? (fun r => r._id == rid) = some req)
    (hnot : req.status ≠ "approved")
    (huid : isValidObjectId req.user_id = true)
    (hu : db.authuser.find? (fun v => v._id == req.user_id) = some u) :
    (approve_topup db now rid user).1 = .ok "approved" ∧
    ((approve_topup db now rid user).2.authuser.find? (fun v => v._id == req.user_id) =
      some { u with balance := some (u.balance.getD 0 + req.amount), updated_at := now }) ∧
    ((approve_topup db now rid user).2.wallettopup.find? (fun r => r._id == rid) =
      some { req with status := "approved", updated_at := now }) ∧
    (approve_topup (approve_topup db now rid user).2 now rid user =
      (.ok "already_approved", (approve_topup db now rid user).2)) ∧
    (∀ db' req', db'.wallettopup.find? (fun r => r._id == rid) = some req' →
      req'.status = "approved" →
      approve_topup db' now rid user = (.ok "already_approved", db')) := by
  have hstat : (req.status == "approved") = false := by simpa using hnot
  have happ : approve_topup db now rid user =
      (.ok "approved",
       { db with
           authuser := incBalanceById req.user_id req.amount now db.authuser,
           wallettopup := (updateFirst (fun r => r._id == rid)
             (fun r => { r with status := "approved", updated_at := now })
             db.wallettopup) }) := by
    rw [approve_topup, hadmin]
    simp [hrid, hreq, hstat, huid]
  have hgen : ∀ db' req', db'.wallettopup.find? (fun r => r._id == rid) = some req' →
      req'.status = "approved" →
      approve_topup db' now rid user = (.ok "already_approved", db') := by
    intro db' req' h' hst
    rw [approve_topup, hadmin]
    simp [hrid, h', hst]
  have h3 : (approve_topup db now rid user).2.wallettopup.find?
      (fun r => r._id == rid) = some { req with status := "approved", updated_at := now } := by
    rw [happ]
    exact topupStatus_find? rid "approved" now db.wallettopup req hreq
  refine ⟨by rw [happ], ?_, h3, hgen _ _ h3 rfl, hgen⟩
  · rw [happ]
    exact incBalanceById_find? req.user_id req.amount now db.authuser u hu

/-- **C3 witness.** Approving the pending 5000 topup credits the buyer's
balance from 20000 to 25000 and marks the record approved; the immediate second
approval returns already_approved and leaves the store as it was. -/
theorem approveTopup_credits_once_idempotent_witness :
    (approve_topup exDB 9 "dddddddddddddddddddddddd" adminUser).1 = .ok "approved" ∧
    ((approve_topup exDB 9 "dddddddddddddddddddddddd" adminUser).2.authuser.find?
        (fun v => v._id == topupPending.user_id) =
      some { buyerUser with balance := some (buyerUser.balance.getD 0 + topupPending.amount),
                            updated_at := 9 }) ∧
    ((approve_topup exDB 9 "dddddddddddddddddddddddd" adminUser).2.wallettopup.find?
        (fun r => r._id == "dddddddddddddddddddddddd") =
      some { topupPending with status := "approved", updated_at := 9 }) ∧
    (approve_topup (approve_topup exDB 9 "dddddddddddddddddddddddd" adminUser).2 9
        "dddddddddddddddddddddddd" adminUser =
      (.ok "already_approved", (approve_topup exDB 9 "dddddddddddddddddddddddd" adminUser).2)) ∧
    (∀ db' req', db'.wallettopup.find? (fun r => r._id == "dddddddddddddddddddddddd") = some req' →
      req'.status = "approved" →
      approve_topup db' 9 "dddddddddddddddddddddddd" adminUser = (.ok "already_approved", db')) :=
  approveTopup_credits_once_idempotent exDB 9 "dddddddddddddddddddddddd" adminUser
    topupPending buyerUser (by rfl) (by decide) (by rfl) (by decide) (by decide) (by rfl)

/-- **C9.** `reject_topup` never modifies any user's stored balance — the user
collection (and the order collection) pass through unchanged on every path —
and on an existing record of any status, approved included, it only sets that
record's status to rejected (stamping the update time). -/
theorem rejectTopup_balance_frame (db : DB) (now : Nat) (rid : String) (user : UserDoc) :
    (reject_topup db now rid user).2.authuser = db.authuser ∧
    (reject_topup db now rid user).2.order = db.order ∧
    ∀ req, require_admin user = .ok () → isValidObjectId rid = true →
      db.wallettopup.find? (fun r => r._id == rid) = some req →
      (reject_topup db now rid user).1 = .ok "rejected" ∧
      ((reject_topup db now rid user).2.wallettopup.find? (fun r => r._id == rid) =
        some { req with status := "rejected", updated_at := now }) := by
  rcases hadmin : require_admin user with e | v
  · refine ⟨by rw [reject_topup, hadmin], by rw [reject_topup, hadmin], ?_⟩
    intro req hok
    exact Except.noConfusion hok
  · cases v
    rcases hrid : isValidObjectId rid with _ | _
    · refine ⟨?_, ?_, ?_⟩ <;> simp [reject_topup, hadmin, hrid]
    · rcases hfind : db.wallettopup.find? (fun r => r._id == rid) with _ | req0
      · refine ⟨?_, ?_, ?_⟩ <;> simp [reject_topup, hadmin, hrid, hfind]
      · have hrj : reject_topup db now rid user =
            (.ok "rejected",
             { db with wallettopup := (updateFirst (fun r => r._id == rid)
                 (fun r => { r with status := "rejected", updated_at := now })
                 db.wallettopup) }) := by
          rw [reject_topup, hadmin]
          simp [hrid, hfind]
        refine ⟨by rw [hrj], by rw [hrj], ?_⟩
        intro req _ _ hsome
        rw [hfind] at hsome
        cases hsome
        exact ⟨by rw [hrj],
          by rw [hrj]; exact topupStatus_find? rid "rejected" now db.wallettopup req0 hfind⟩

/-- **C9 witness.** Rejecting the pending topup leaves both user balances and
the order collection untouched and marks the record rejected. -/
theorem rejectTopup_balance_frame_witness :
    (reject_topup exDB 9 "dddddddddddddddddddddddd" adminUser).2.authuser = exDB.authuser ∧
    (reject_topup exDB 9 "dddddddddddddddddddddddd" adminUser).2.order = exDB.order ∧
    ((reject_topup exDB 9 "dddddddddddddddddddddddd" adminUser).1 = .ok "rejected" ∧
     ((reject_topup exDB 9 "dddddddddddddddddddddddd" adminUser).2.wallettopup.find?
         (fun r => r._id == "dddddddddddddddddddddddd") =
       some { topupPending with status := "rejected", updated_at := 9 })) := by
  have h := rejectTopup_balance_frame exDB 9 "dddddddddddddddddddddddd" adminUser
  exact ⟨h.1, h.2.1, h.2.2 topupPending (by rfl) (by decide) (by rfl)⟩

/-- **C6.** `register_user` fails with the duplicate-email 400 whenever the
prior read finds a user with the email, inserting nothing; on success the
inserted record's role is user (and its balance zero). -/
theorem register_conflict_role_user
    (db : DB) (hash : String → String) (now : Nat) (newId name email password : String) :
    (∀ u, db.authuser.find? (fun v => v.email == email) = some u →
      register_user db hash now newId name email password =
        (.error ⟨400, "Email already registered"⟩, db)) ∧
    (db.authuser.find? (fun v => v.email == email) = none →
      ∃ doc : UserDoc,
        register_user db hash now newId name email password =
          (.ok (newId, email, "user"), { db with authuser := db.authuser ++ [doc] }) ∧
        doc.role = some "user" ∧ doc.email = email ∧ doc.balance = some 0) := by
  constructor
  · intro u hu
    rw [register_user, hu]
  · intro hnone
    refine ⟨{ _id := newId, email := email, name := name, password_hash := hash password,
              role := some "user", balance := some 0, is_active := true,
              created_at := now, updated_at := now }, ?_, rfl, rfl, rfl⟩
    rw [register_user, hnone]
    rfl

/-- **C6 witness.** Registering the already-present admin email fails with the
conflict 400 and the store is unchanged; registering a fresh email inserts one
record whose role is user. -/
theorem register_conflict_role_user_witness :
    register_user exDB (fun s => s) 3 "cccccccccccccccccccccccc" "Ada2" "admin@x" "pw" =
      (.error ⟨400, "Email already registered"⟩, exDB) ∧
    ∃ doc : UserDoc,
      register_user exDB (fun s => s) 3 "cccccccccccccccccccccccc" "New" "new@x" "pw" =
        (.ok ("cccccccccccccccccccccccc", "new@x", "user"),
         { exDB with authuser := exDB.authuser ++ [doc] }) ∧
      doc.role = some "user" ∧ doc.email = "new@x" ∧ doc.balance = some 0 :=
  ⟨(register_conflict_role_user exDB (fun s => s) 3 "cccccccccccccccccccccccc"
      "Ada2" "admin@x" "pw").1 adminUser (by rfl),
   (register_conflict_role_user exDB (fun s => s) 3 "cccccccccccccccccccccccc"
      "New" "new@x" "pw").2 (by rfl)⟩

/-- **C4.** Contrary to the claim, a non-positive amount does not surface as a
client error: the endpoint's own 400 is caught by its `except Exception` and
rewrapped as a 500 server error carrying the stringified exception.  For a
positive amount a pending record scoped to the acting user is inserted and its
generated id returned. -/
theorem walletTopup_invalid_amount_server_error :
    wallet_topup_request exDB 9 "cccccccccccccccccccccccc" "deadbeef" 0 ".jpg" buyerUser =
      (.error ⟨500, "400: Jumlah top up tidak valid"⟩, exDB) ∧
    wallet_topup_request exDB 9 "cccccccccccccccccccccccc" "deadbeef" 5000 ".jpg" buyerUser =
      (.ok ("cccccccccccccccccccccccc", "pending"),
       { exDB with wallettopup := exDB.wallettopup ++
           [{ _id := "cccccccccccccccccccccccc", user_id := buyerUser._id,
              email := some buyerUser.email, amount := 5000,
              proof := "/uploads/topup-deadbeef.jpg", status := "pending",
              created_at := 9, updated_at := 9 }] }) := by
  constructor
  · rfl
  · rfl

/-- **C10.** `get_order` and `get_order_invoice` answer an order id that does
not parse as an ObjectId with a 500 carrying the parse-error message, never
with 404; the 404 is reserved for well-formed ids absent from the store, and a
present id is served. -/
theorem getOrder_invalid_id_server_error (db : DB) (oid : String) :
    (isValidObjectId oid = false →
      get_order db oid = .error ⟨500, invalidIdMessage oid⟩ ∧
      get_order_invoice db oid = .error ⟨500, invalidIdMessage oid⟩) ∧
    (isValidObjectId oid = true → db.order.find? (fun o => o._id == oid) = none →
      get_order db oid = .error ⟨404, "Order not found"⟩ ∧
      get_order_invoice db oid = .error ⟨404, "Order not found"⟩) ∧
    ∀ row, isValidObjectId oid = true → db.order.find? (fun o => o._id == oid) = some row →
      get_order db oid = .ok row ∧ get_order_invoice db oid = .ok (invoice_html oid row) := by
  refine ⟨fun h => ⟨?_, ?_⟩, fun h hn => ⟨?_, ?_⟩, fun row h hs => ⟨?_, ?_⟩⟩ <;>
    simp [get_order, get_order_invoice, h]
  · rw [hn]
  · rw [hn]
  · rw [hs]
  · rw [hs]

/-- **C10 witness.** A malformed id yields the 500 with the parse message on
both routes, the well-formed absent id yields the 404 on both, and the stored
order's id is served by both. -/
theorem getOrder_invalid_id_server_error_witness :
    (get_order exDB "not-an-id" = .error ⟨500, invalidIdMessage "not-an-id"⟩ ∧
     get_order_invoice exDB "not-an-id" = .error ⟨500, invalidIdMessage "not-an-id"⟩) ∧
    (get_order exDB "cccccccccccccccccccccccc" = .error ⟨404, "Order not found"⟩ ∧
     get_order_invoice exDB "cccccccccccccccccccccccc" = .error ⟨404, "Order not found"⟩) ∧
    (get_order exDB "ffffffffffffffffffffffff" = .ok storedAnonOrder ∧
     get_order_invoice exDB "ffffffffffffffffffffffff" =
       .ok (invoice_html "ffffffffffffffffffffffff" storedAnonOrder)) :=
  ⟨(getOrder_invalid_id_server_error exDB "not-an-id").1 (by decide),
   (getOrder_invalid_id_server_error exDB "cccccccccccccccccccccccc").2.1 (by decide) (by rfl),
   (getOrder_invalid_id_server_error exDB "ffffffffffffffffffffffff").2.2 storedAnonOrder
     (by decide) (by rfl)⟩

/-- On a pattern free of regex metacharacters, the prefix matcher is exactly the
caseless literal prefix test. -/
theorem regexMatchHere_literal (pat : List Char)
    (hpat : pat.all (fun c => !regexMeta c) = true) :
    ∀ text, regexMatchHere pat text = listStarts (lowerList pat) (lowerList text) := by
  induction pat with
  | nil => intro text; rfl
  | cons pc ps ih =>
    have hm : (!regexMeta pc) = true ∧ ps.all (fun c => !regexMeta c) = true := by
      simpa [List.all_cons] using hpat
    have hdot : (pc == '.') = false := by
      rcases h : pc == '.' with _ | _
      · rfl
      · exfalso
        have hm1 := hm.1
        rw [regexMeta, h] at hm1
        simp at hm1
    intro text
    cases text with
    | nil => rfl
    | cons c cs =>
      show (regexCharMatches pc c && regexMatchHere ps cs) = _
      rw [regexCharMatches, hdot, Bool.false_or, ih hm.2 cs]
      rfl

/-- On a pattern free of regex metacharacters, the unanchored search is exactly
the caseless substring test. -/
theorem regexSearch_literal (pat : List Char)
    (hpat : pat.all (fun c => !regexMeta c) = true) :
    ∀ text, regexSearch pat text = subOccurs (lowerList pat) (lowerList text) := by
  intro text
  induction text with
  | nil =>
    show regexMatchHere pat [] = _
    rw [regexMatchHere_literal pat hpat []]
    rfl
  | cons c cs ih =>
    show (regexMatchHere pat (c :: cs) || regexSearch pat cs) = _
    rw [regexMatchHere_literal pat hpat (c :: cs), ih]
    rfl

/-- **C7 (amended).** `list_products` returns at most 100 stored products; a
non-empty category filter admits only products whose category equals it
exactly; a non-empty text query admits only products whose title matches it as
a case-insensitive regular expression — which, for queries containing no regex
metacharacter, is precisely case-insensitive substring containment of the
query in the title; both filters combine as a conjunction. -/
theorem listProducts_filters (db : DB) (category q : Option String) :
    (list_products db category q).length ≤ 100 ∧
    (∀ p ∈ list_products db category q,
      p ∈ db.product ∧
      (∀ c, category = some c → c ≠ "" → p.category = some c) ∧
      (∀ s, q = some s → s ≠ "" → title_regex_i s p.title = true)) ∧
    (∀ s t : String, s.data.all (fun ch => !regexMeta ch) = true →
      title_regex_i s t = titleContainsCI t s) := by
  refine ⟨?_, ?_, ?_⟩
  · exact List.length_take_le 100 _
  · intro p hp
    have hp' : p ∈ db.product.filter (product_query category q) :=
      List.take_subset 100 _ hp
    have hmem := (List.mem_filter.mp hp').1
    have hq := (List.mem_filter.mp hp').2
    rw [product_query.eq_def, Bool.and_eq_true] at hq
    refine ⟨hmem, ?_, ?_⟩
    · intro c hc hne
      rw [hc] at hq
      have hne' : (c == "") = false := by simpa using hne
      have h1 := hq.1
      simp only [hne', Bool.false_eq_true, if_false] at h1
      exact eq_of_beq h1
    · intro s hs hne
      rw [hs] at hq
      have hne' : (s == "") = false := by simpa using hne
      have h2 := hq.2
      simp only [hne', Bool.false_eq_true, if_false] at h2
      exact h2
  · intro s t hs
    rw [title_regex_i, titleContainsCI, regexSearch_literal s.data hs t.data]

/-- **C7 witness.** On the store holding the tea product, the query tea with
the drinks category returns within the cap only stored drinks products, and on
the metacharacter-free query tea the regex filter agrees with case-insensitive
containment. -/
theorem listProducts_filters_witness :
    (list_products exDB (some "drinks") (some "tea")).length ≤ 100 ∧
    teaProduct.category = some "drinks" ∧
    title_regex_i "tea" teaProduct.title = true ∧
    title_regex_i "tea" teaProduct.title = titleContainsCI teaProduct.title "tea" := by
  have h := listProducts_filters exDB (some "drinks") (some "tea")
  have hmem : teaProduct ∈ list_products exDB (some "drinks") (some "tea") := by decide
  have hp := h.2.1 teaProduct hmem
  exact ⟨h.1, hp.2.1 "drinks" rfl (by decide), hp.2.2 "tea" rfl (by decide),
    h.2.2 "tea" teaProduct.title (by decide)⟩

/-- **C7 counterexample.** The claim as stated fails for a query containing a
regex metacharacter: the dot query returns the stored product titled tea even
though that title does not contain a dot, case-insensitively or otherwise. -/
theorem listProducts_regex_counterexample :
    list_products exDB none (some ".") = [teaProduct] ∧
    titleContainsCI teaProduct.title "." = false := ⟨rfl, rfl⟩

end GreenFood
